import Mathlib

/-!
Verification of the PDAL reprojection filter (src/filters/ReprojectionFilter.cpp)
and of the Faux reference reader contract (test/unit/FauxReaderTest.cpp), as a
shallow embedding.  Doubles are modelled as rationals; the external GDAL
transform service is modelled as an opaque record of functions; the
PDAL_HAVE_GDAL conditional compilation is modelled as a Boolean capability
flag passed to each operation.
-/

namespace PDAL

/-- The well-known dimension identifiers used by the code under verification
(Dimension::Id_X_f64 etc.). -/
inductive DimensionId
  | X_f64
  | Y_f64
  | Z_f64
  | Time_u64
  | Red_u8
  | Blue_u8
deriving DecidableEq, Repr

/-- A Schema is the ordered list of dimension identifiers of one point layout. -/
abbrev Schema := List DimensionId

/-- Schema::hasDimension. -/
def Schema.hasDimension (s : Schema) (d : DimensionId) : Bool :=
  s.contains d

/-- Schema::getDimensionIndex: index of the dimension in layout order. -/
def Schema.getDimensionIndex (s : Schema) (d : DimensionId) : ℕ :=
  s.indexOf d

/-- The error kinds thrown by the code paths under verification:
pdal::impedance_invalid, std::runtime_error, pdal::pdal_error, and the error of
Options::getValueOrThrow on a missing option. -/
inductive PdalError
  | impedance_invalid (msg : String)
  | runtime_error (msg : String)
  | pdal_error (msg : String)
  | option_not_found (msg : String)
deriving DecidableEq, Repr

/-- The external GDAL transform service at its interface boundary:
OSRSetFromUserInput result code (0 = OGRERR_NONE) keyed by the WKT text,
whether OCTNewCoordinateTransformation returns a non-null handle for a pair of
spatial references, OCTTransform on one coordinate triple (None = failure
return), and CPLGetLastErrorMsg. -/
structure TransformService where
  setFromUserInput : String → Int
  canTransform : String → String → Bool
  octTransform : String → String → ℚ → ℚ → ℚ → Option (ℚ × ℚ × ℚ)
  lastErrorMsg : String

/-- PointBuffer: a schema, a capacity, the logical valid-count (m_numPoints),
and the field values by (point index, dimension index). -/
structure PointBuffer where
  schema : Schema
  capacity : ℕ
  numPoints : ℕ
  fields : ℕ → ℕ → ℚ

/-- PointBuffer::getField. -/
def PointBuffer.getField (b : PointBuffer) (pointIndex dimIndex : ℕ) : ℚ :=
  b.fields pointIndex dimIndex

/-- PointBuffer::setField. -/
def PointBuffer.setField (b : PointBuffer) (pointIndex dimIndex : ℕ) (v : ℚ) :
    PointBuffer :=
  { b with fields := fun p d =>
      if p = pointIndex ∧ d = dimIndex then v else b.fields p d }

/-- PointBuffer::setNumPoints. -/
def PointBuffer.setNumPoints (b : PointBuffer) (n : ℕ) : PointBuffer :=
  { b with numPoints := n }

namespace ReprojectionFilter

/-- ReprojectionFilter::transform (lines 232-252): with GDAL available it calls
OCTTransform on the one coordinate triple and throws pdal_error carrying
CPLGetLastErrorMsg and the return code on failure; without GDAL the body only
suppresses unused-variable warnings and returns the triple unchanged. -/
def transform (svc : TransformService) (haveGDAL : Bool) (tin tout : String)
    (x y z : ℚ) : Except PdalError (ℚ × ℚ × ℚ) :=
  if haveGDAL then
    match svc.octTransform tin tout x y z with
    | some p => .ok p
    | none => .error (.pdal_error
        ("Could not project point for ReprojectionTransform::" ++
          svc.lastErrorMsg ++ "0"))
  else
    .ok (x, y, z)

/-- The write-back of one transformed point (lines 274-278): setField on the
X, Y, Z dimensions followed by setNumPoints past that point. -/
def writePoint (data : PointBuffer) (pointIndex indexX indexY indexZ : ℕ)
    (x' y' z' : ℚ) : PointBuffer :=
  (((data.setField pointIndex indexX x').setField pointIndex indexY
      y').setField pointIndex indexZ z').setNumPoints (pointIndex + 1)

/-- The loop of ReprojectionFilter::processBuffer (lines 266-279): for each
point below the valid count read X/Y/Z, transform, write back, and advance the
valid count past that point; a transform failure propagates out with the buffer
as mutated so far. -/
def processLoop (svc : TransformService) (haveGDAL : Bool) (tin tout : String)
    (indexX indexY indexZ numPoints pointIndex : ℕ) (data : PointBuffer) :
    PointBuffer × Option PdalError :=
  if _h : pointIndex < numPoints then
    match transform svc haveGDAL tin tout
        (data.getField pointIndex indexX)
        (data.getField pointIndex indexY)
        (data.getField pointIndex indexZ) with
    | .error e => (data, some e)
    | .ok (x', y', z') =>
        processLoop svc haveGDAL tin tout indexX indexY indexZ numPoints
          (pointIndex + 1)
          (writePoint data pointIndex indexX indexY indexZ x' y' z')
  else
    (data, none)
termination_by numPoints - pointIndex

/-- ReprojectionFilter::processBuffer (lines 255-282): reads the valid count
and the X/Y/Z dimension indices once, then runs the per-point loop from 0. -/
def processBuffer (svc : TransformService) (haveGDAL : Bool) (tin tout : String)
    (data : PointBuffer) : PointBuffer × Option PdalError :=
  processLoop svc haveGDAL tin tout
    (Schema.getDimensionIndex data.schema .X_f64)
    (Schema.getDimensionIndex data.schema .Y_f64)
    (Schema.getDimensionIndex data.schema .Z_f64)
    data.numPoints 0 data

end ReprojectionFilter

/-- Bounds over doubles: the per-axis minima and maxima as stored by the
six-argument Bounds constructor used at line 209. -/
structure Bounds where
  minx : ℚ
  miny : ℚ
  minz : ℚ
  maxx : ℚ
  maxy : ℚ
  maxz : ℚ
deriving DecidableEq, Repr

/-- The observable state of the upstream Stage that the reprojection filter
reads: its schema, its bounds, and its declared spatial reference (kept as
opaque WKT text). -/
structure Stage where
  schema : Schema
  bounds : Bounds
  spatialReference : String
deriving DecidableEq, Repr

/-- The member state set by the ReprojectionFilter constructors (lines
84-122): m_inSRS, m_outSRS, m_inferInputSRS. -/
structure ReprojectionFilter where
  inSRS : String
  outSRS : String
  inferInputSRS : Bool
deriving DecidableEq, Repr

/-- The Options bag at its interface boundary: named values, the values kept
as their spatial-reference text. -/
structure Options where
  pairs : List (String × String)
deriving DecidableEq, Repr

/-- Options lookup by key. -/
def Options.getValue (o : Options) (key : String) : Option String :=
  (o.pairs.find? (fun p => p.1 == key)).map Prod.snd

/-- Options::hasOption. -/
def Options.hasOption (o : Options) (key : String) : Bool :=
  (o.getValue key).isSome

/-- The ReprojectionFilter(Stage, Options) constructor (lines 84-100): m_outSRS
is pulled with getValueOrThrow, then in_srs is taken if present, otherwise
input-SRS inference is enabled.  Options::getValueOrThrow is not under src/;
modelled from the spec: a missing required option is a configuration error
raised where the lookup happens, i.e. inside the constructor. -/
def mkReprojectionFilter (options : Options) :
    Except PdalError ReprojectionFilter :=
  match options.getValue "out_srs" with
  | none => .error (.option_not_found "Required option out_srs was not found")
  | some out =>
      match options.getValue "in_srs" with
      | some i => .ok { inSRS := i, outSRS := out, inferInputSRS := false }
      | none => .ok { inSRS := "", outSRS := out, inferInputSRS := true }

namespace ReprojectionFilter

/-- ReprojectionFilter::checkImpedance (lines 217-229). -/
def checkImpedance (schema : Schema) : Except PdalError Unit :=
  if !(schema.hasDimension .X_f64) || !(schema.hasDimension .Y_f64) ||
      !(schema.hasDimension .Z_f64) then
    .error (.impedance_invalid
      "Reprojection filter requires X,Y,Z dimensions as doubles")
  else
    .ok ()

/-- ReprojectionFilter::updateBounds (lines 188-214): transform the minimum
corner then the maximum corner; if either transform throws, keep the old
bounds; otherwise store the transformed corners directly as the new minima
and maxima. -/
def updateBounds (svc : TransformService) (haveGDAL : Bool) (tin tout : String)
    (oldBounds : Bounds) : Bounds :=
  match transform svc haveGDAL tin tout
      oldBounds.minx oldBounds.miny oldBounds.minz with
  | .error _ => oldBounds
  | .ok (minx', miny', minz') =>
    match transform svc haveGDAL tin tout
        oldBounds.maxx oldBounds.maxy oldBounds.maxz with
    | .error _ => oldBounds
    | .ok (maxx', maxy', maxz') =>
        { minx := minx', miny := miny', minz := minz',
          maxx := maxx', maxy := maxy', maxz := maxz' }

/-- Calls made to the GDAL service while a reprojection filter initializes,
in order: OSRNewSpatialReference, OSRSetFromUserInput,
OCTNewCoordinateTransformation. -/
inductive ServiceEvent
  | newSpatialReference
  | setFromUserInput (wkt : String)
  | newCoordinateTransformation
deriving DecidableEq, Repr

/-- The filter state observable once ReprojectionFilter::initialize returns:
schema and bounds (inherited from upstream, bounds then recomputed), the
declared spatial reference, and the resolved input/output references. -/
structure InitializedFilter where
  schema : Schema
  bounds : Bounds
  spatialReference : String
  inSRS : String
  outSRS : String
deriving DecidableEq, Repr

/-- The input-SRS resolution step of lines 131-134: when inference is enabled
m_inSRS becomes upstream's declared spatial reference. -/
def resolveInSRS (prevStage : Stage) (f : ReprojectionFilter) : String :=
  if f.inferInputSRS then prevStage.spatialReference else f.inSRS

/-- ReprojectionFilter::initialize (lines 125-178): base Filter initialization
inherits upstream's schema and bounds; then checkImpedance; then input-SRS
inference from upstream when enabled; then (with GDAL) two spatial-reference
handles are built and set from user input and one coordinate-transform handle
is built, each failure being fatal with the service's diagnostic text and
code; finally the declared spatial reference is set to the output SRS and the
bounds are recomputed.  The second component is the ordered list of service
calls that were made. -/
def initializeStage (svc : TransformService) (haveGDAL : Bool)
    (prevStage : Stage) (f : ReprojectionFilter) :
    Except PdalError InitializedFilter × List ServiceEvent :=
  match checkImpedance prevStage.schema with
  | .error e => (.error e, [])
  | .ok _ =>
    let inSRS := resolveInSRS prevStage f
    if haveGDAL then
      let rin := svc.setFromUserInput inSRS
      if rin ≠ 0 then
        (.error (.runtime_error
          ("Could not import input spatial reference for ReprojectionFilter:: "
            ++ svc.lastErrorMsg ++ " code: " ++ toString rin ++ " wkt: "
            ++ inSRS)),
         [.newSpatialReference, .newSpatialReference, .setFromUserInput inSRS])
      else
        let rout := svc.setFromUserInput f.outSRS
        if rout ≠ 0 then
          (.error (.runtime_error
            ("Could not import output spatial reference for ReprojectionFilter:: "
              ++ svc.lastErrorMsg ++ " code: " ++ toString rout ++ " wkt: "
              ++ f.outSRS)),
           [.newSpatialReference, .newSpatialReference, .setFromUserInput inSRS,
            .setFromUserInput f.outSRS])
        else if !(svc.canTransform inSRS f.outSRS) then
          (.error (.runtime_error
            "Could not construct CoordinateTransformation in ReprojectionFilter:: "),
           [.newSpatialReference, .newSpatialReference, .setFromUserInput inSRS,
            .setFromUserInput f.outSRS, .newCoordinateTransformation])
        else
          (.ok { schema := prevStage.schema,
                 bounds := updateBounds svc true inSRS f.outSRS prevStage.bounds,
                 spatialReference := f.outSRS, inSRS := inSRS,
                 outSRS := f.outSRS },
           [.newSpatialReference, .newSpatialReference, .setFromUserInput inSRS,
            .setFromUserInput f.outSRS, .newCoordinateTransformation])
    else
      (.ok { schema := prevStage.schema,
             bounds := updateBounds svc false inSRS f.outSRS prevStage.bounds,
             spatialReference := f.outSRS, inSRS := inSRS, outSRS := f.outSRS },
       [])

end ReprojectionFilter

namespace Faux

/-- Modelled from the spec: the generation modes of the Faux reader
(drivers/faux/Reader.cpp is not under src/; spec sections 4.5 and 8). -/
inductive Mode
  | constant
  | random
  | ramp
deriving DecidableEq, Repr

/-- One generated point: the three coordinates and the 64-bit time field. -/
structure FauxPoint where
  x : ℚ
  y : ℚ
  z : ℚ
  t : ℕ
deriving DecidableEq, Repr

/-- Modelled from the spec: the Faux reference reader's configuration
(bounds, requested point count, generation mode); the Random mode's
position-pure coordinate stream is an opaque per-position draw. -/
structure Reader where
  bounds : Bounds
  numPoints : ℕ
  mode : Mode
  randomDraw : ℕ → ℚ × ℚ × ℚ

/-- Modelled from the spec: the point generated at 0-based sequence position
i (spec section 4.5) — Constant: the bounds' minimum corner; Random: the
per-position draw; Ramp: min + i*(max-min)/(N-1) per coordinate, degenerating
to the minimum corner when N is at most 1; the time field always equals i. -/
def pointAt (r : Reader) (i : ℕ) : FauxPoint :=
  match r.mode with
  | .constant => ⟨r.bounds.minx, r.bounds.miny, r.bounds.minz, i⟩
  | .random =>
      ⟨(r.randomDraw i).1, (r.randomDraw i).2.1, (r.randomDraw i).2.2, i⟩
  | .ramp =>
      if r.numPoints ≤ 1 then ⟨r.bounds.minx, r.bounds.miny, r.bounds.minz, i⟩
      else
        ⟨r.bounds.minx +
            (i : ℚ) * (r.bounds.maxx - r.bounds.minx) / ((r.numPoints : ℚ) - 1),
         r.bounds.miny +
            (i : ℚ) * (r.bounds.maxy - r.bounds.miny) / ((r.numPoints : ℚ) - 1),
         r.bounds.minz +
            (i : ℚ) * (r.bounds.maxz - r.bounds.minz) / ((r.numPoints : ℚ) - 1),
         i⟩

/-- Modelled from the spec: one pull-style read starting at a cursor
position: it produces at most the buffer capacity, stops at the reader's
point count, and reports how many points were produced. -/
def readFrom (r : Reader) (pos cap : ℕ) : List FauxPoint × ℕ :=
  ((List.range (min cap (r.numPoints - pos))).map (fun j => pointAt r (pos + j)),
   min cap (r.numPoints - pos))

/-- A Sequential iterator's cursor over the reader's sequence. -/
structure SequentialIterator where
  index : ℕ
deriving DecidableEq, Repr

/-- A Random iterator's cursor over the reader's sequence. -/
structure RandomIterator where
  index : ℕ
deriving DecidableEq, Repr

/-- Modelled from the spec: Sequential read(buffer) — produce the next run of
points and advance the cursor by the number produced. -/
def SequentialIterator.read (r : Reader) (it : SequentialIterator) (cap : ℕ) :
    List FauxPoint × ℕ × SequentialIterator :=
  ((readFrom r it.index cap).1, (readFrom r it.index cap).2,
    ⟨it.index + (readFrom r it.index cap).2⟩)

/-- Modelled from the spec: Random seek(position) — reposition the cursor and
report the new position. -/
def RandomIterator.seek (_it : RandomIterator) (position : ℕ) :
    ℕ × RandomIterator :=
  (position, ⟨position⟩)

/-- Modelled from the spec: Random read(buffer) — identical pull semantics to
the Sequential read, from the current cursor. -/
def RandomIterator.read (r : Reader) (it : RandomIterator) (cap : ℕ) :
    List FauxPoint × ℕ × RandomIterator :=
  ((readFrom r it.index cap).1, (readFrom r it.index cap).2,
    ⟨it.index + (readFrom r it.index cap).2⟩)

/-- The ramp reader of the spec's section 8 example: bounds
(1,2,3)-(101,152,203), count 750, Ramp mode. -/
def rampReader : Reader :=
  { bounds := { minx := 1, miny := 2, minz := 3,
                maxx := 101, maxy := 152, maxz := 203 }
    numPoints := 750
    mode := .ramp
    randomDraw := fun _ => (0, 0, 0) }

/-- The two-point ramp reader of test_ramp_mode_1: bounds (0,0,0)-(4,4,4),
count 2, Ramp mode. -/
def rampReader2 : Reader :=
  { bounds := { minx := 0, miny := 0, minz := 0, maxx := 4, maxy := 4, maxz := 4 }
    numPoints := 2
    mode := .ramp
    randomDraw := fun _ => (0, 0, 0) }

end Faux

/-- A service whose point transform negates every coordinate: an
order-reversing but everywhere-successful transform. -/
def negateService : TransformService :=
  { setFromUserInput := fun _ => 0
    canTransform := fun _ _ => true
    octTransform := fun _ _ x y z => some (-x, -y, -z)
    lastErrorMsg := "" }

/-- A service whose point transform rejects every coordinate triple. -/
def rejectService : TransformService :=
  { setFromUserInput := fun _ => 0
    canTransform := fun _ _ => true
    octTransform := fun _ _ _ _ _ => none
    lastErrorMsg := "proj failure" }

/-- A service that rejects exactly the triples whose x coordinate is 10 and
shifts every other triple by one. -/
def shiftService : TransformService :=
  { setFromUserInput := fun _ => 0
    canTransform := fun _ _ => true
    octTransform := fun _ _ x y z =>
      if x = 10 then none else some (x + 1, y + 1, z + 1)
    lastErrorMsg := "shift failure" }

/-- A two-point buffer over the default X,Y,Z,Time schema: point 0 holds
(0,1,2), point 1 holds (10,1,2), and every time field holds 3. -/
def bufferW : PointBuffer :=
  { schema := [.X_f64, .Y_f64, .Z_f64, .Time_u64]
    capacity := 2
    numPoints := 2
    fields := fun p d =>
      if p = 1 ∧ d = 0 then 10
      else if d = 0 then 0 else if d = 1 then 1 else if d = 2 then 2 else 3 }

/-- An upstream stage with the default X,Y,Z,Time schema and bounds
(1,2,3)-(4,5,6). -/
def stageW : Stage :=
  { schema := [.X_f64, .Y_f64, .Z_f64, .Time_u64]
    bounds := { minx := 1, miny := 2, minz := 3, maxx := 4, maxy := 5, maxz := 6 }
    spatialReference := "EPSG:26910" }

/-- An upstream stage whose schema lacks the double X, Y, Z dimensions. -/
def stageNoX : Stage :=
  { schema := [.Time_u64]
    bounds := { minx := 1, miny := 2, minz := 3, maxx := 4, maxy := 5, maxz := 6 }
    spatialReference := "EPSG:26910" }

/-- A constructed reprojection filter with explicit input and output
spatial references. -/
def filterW : ReprojectionFilter :=
  { inSRS := "EPSG:26910", outSRS := "EPSG:4326", inferInputSRS := false }

theorem PointBuffer.getField_setField (b : PointBuffer) (p d : ℕ) (v : ℚ)
    (p' d' : ℕ) :
    (b.setField p d v).getField p' d' =
      if p' = p ∧ d' = d then v else b.getField p' d' := rfl

theorem PointBuffer.getField_setNumPoints (b : PointBuffer) (n p d : ℕ) :
    (b.setNumPoints n).getField p d = b.getField p d := rfl

theorem PointBuffer.numPoints_setNumPoints (b : PointBuffer) (n : ℕ) :
    (b.setNumPoints n).numPoints = n := rfl

theorem PointBuffer.numPoints_setField (b : PointBuffer) (p d : ℕ) (v : ℚ) :
    (b.setField p d v).numPoints = b.numPoints := rfl

theorem PointBuffer.schema_setField (b : PointBuffer) (p d : ℕ) (v : ℚ) :
    (b.setField p d v).schema = b.schema := rfl

theorem PointBuffer.schema_setNumPoints (b : PointBuffer) (n : ℕ) :
    (b.setNumPoints n).schema = b.schema := rfl

theorem ReprojectionFilter.transform_gdal_some (svc : TransformService)
    (tin tout : String) (x y z x' y' z' : ℚ)
    (h : svc.octTransform tin tout x y z = some (x', y', z')) :
    ReprojectionFilter.transform svc true tin tout x y z = .ok (x', y', z') := by
  simp [ReprojectionFilter.transform, h]

theorem ReprojectionFilter.transform_gdal_none (svc : TransformService)
    (tin tout : String) (x y z : ℚ)
    (h : svc.octTransform tin tout x y z = none) :
    ReprojectionFilter.transform svc true tin tout x y z =
      .error (.pdal_error
        ("Could not project point for ReprojectionTransform::" ++
          svc.lastErrorMsg ++ "0")) := by
  simp [ReprojectionFilter.transform, h]

theorem ReprojectionFilter.checkImpedance_ok (schema : Schema)
    (h : (schema.hasDimension .X_f64 && schema.hasDimension .Y_f64 &&
          schema.hasDimension .Z_f64) = true) :
    ReprojectionFilter.checkImpedance schema = .ok () := by
  unfold ReprojectionFilter.checkImpedance
  simp only [Bool.and_eq_true] at h
  simp [h.1.1, h.1.2, h.2]

theorem ReprojectionFilter.updateBounds_cornerFailure (svc : TransformService)
    (tin tout : String) (b : Bounds)
    (h : svc.octTransform tin tout b.minx b.miny b.minz = none ∨
         svc.octTransform tin tout b.maxx b.maxy b.maxz = none) :
    ReprojectionFilter.updateBounds svc true tin tout b = b := by
  unfold ReprojectionFilter.updateBounds
  rcases h with h | h
  · simp [ReprojectionFilter.transform, h]
  · cases hmin : svc.octTransform tin tout b.minx b.miny b.minz with
    | none => simp [ReprojectionFilter.transform, hmin]
    | some p =>
        obtain ⟨x', y', z'⟩ := p
        simp [ReprojectionFilter.transform, hmin, h]

/-- C2: if the upstream schema lacks a 64-bit-float X, Y, or Z dimension,
ReprojectionFilter::initialize fails with the schema-impedance error, and no
coordinate-system or transform handle is constructed from the Transform
Service beforehand (the list of service calls is empty). -/
theorem ReprojectionFilter.impedance_fails_before_handles
    (svc : TransformService) (haveGDAL : Bool) (prevStage : Stage)
    (f : ReprojectionFilter)
    (h : (prevStage.schema.hasDimension .X_f64 &&
          prevStage.schema.hasDimension .Y_f64 &&
          prevStage.schema.hasDimension .Z_f64) = false) :
    ReprojectionFilter.initializeStage svc haveGDAL prevStage f =
      (.error (.impedance_invalid
        "Reprojection filter requires X,Y,Z dimensions as doubles"), []) := by
  unfold ReprojectionFilter.initializeStage ReprojectionFilter.checkImpedance
  cases hx : prevStage.schema.hasDimension .X_f64 <;>
    cases hy : prevStage.schema.hasDimension .Y_f64 <;>
      cases hz : prevStage.schema.hasDimension .Z_f64 <;>
        simp_all

/-- C2 witness: a schema holding only the time dimension is rejected with the
impedance error and an empty service-call list. -/
theorem ReprojectionFilter.impedance_fails_before_handles_witness :
    ReprojectionFilter.initializeStage rejectService true stageNoX filterW =
      (.error (.impedance_invalid
        "Reprojection filter requires X,Y,Z dimensions as doubles"), []) :=
  ReprojectionFilter.impedance_fails_before_handles rejectService true stageNoX
    filterW (by decide)

/-- C3: if the coordinate transform fails on either corner while recomputing
bounds during initialize(), initialize() still succeeds and the stage's
declared bounds remain exactly the prior (upstream) bounds. -/
theorem ReprojectionFilter.boundsRecompute_failure_keeps_prior_bounds
    (svc : TransformService) (prevStage : Stage) (f : ReprojectionFilter)
    (himp : (prevStage.schema.hasDimension .X_f64 &&
             prevStage.schema.hasDimension .Y_f64 &&
             prevStage.schema.hasDimension .Z_f64) = true)
    (hin : svc.setFromUserInput (ReprojectionFilter.resolveInSRS prevStage f) = 0)
    (hout : svc.setFromUserInput f.outSRS = 0)
    (hct : svc.canTransform (ReprojectionFilter.resolveInSRS prevStage f)
      f.outSRS = true)
    (hfail : svc.octTransform (ReprojectionFilter.resolveInSRS prevStage f)
        f.outSRS prevStage.bounds.minx prevStage.bounds.miny
        prevStage.bounds.minz = none ∨
      svc.octTransform (ReprojectionFilter.resolveInSRS prevStage f) f.outSRS
        prevStage.bounds.maxx prevStage.bounds.maxy
        prevStage.bounds.maxz = none) :
    ∃ s ev, ReprojectionFilter.initializeStage svc true prevStage f =
        (.ok s, ev) ∧ s.bounds = prevStage.bounds := by
  refine ⟨{ schema := prevStage.schema,
            bounds := ReprojectionFilter.updateBounds svc true
              (ReprojectionFilter.resolveInSRS prevStage f) f.outSRS
              prevStage.bounds,
            spatialReference := f.outSRS,
            inSRS := ReprojectionFilter.resolveInSRS prevStage f,
            outSRS := f.outSRS },
          [.newSpatialReference, .newSpatialReference,
           .setFromUserInput (ReprojectionFilter.resolveInSRS prevStage f),
           .setFromUserInput f.outSRS, .newCoordinateTransformation],
          ?_, ?_⟩
  · unfold ReprojectionFilter.initializeStage
    rw [ReprojectionFilter.checkImpedance_ok _ himp]
    simp [hin, hout, hct]
  · exact ReprojectionFilter.updateBounds_cornerFailure svc _ _ _ hfail

/-- C3 witness: under a service that rejects every point transform, the
filter still initializes and keeps the upstream bounds (1,2,3)-(4,5,6). -/
theorem ReprojectionFilter.boundsRecompute_failure_keeps_prior_bounds_witness :
    ∃ s ev, ReprojectionFilter.initializeStage rejectService true stageW
        filterW = (.ok s, ev) ∧ s.bounds = stageW.bounds :=
  ReprojectionFilter.boundsRecompute_failure_keeps_prior_bounds rejectService
    stageW filterW (by decide) (by decide) (by decide) (by decide)
    (Or.inl (by decide))

/-- C5 counterexample: with the everywhere-successful negation transform on
upstream bounds (1,2,3)-(4,5,6), both corner transforms succeed, yet the
recomputed bounds store minima (-1,-2,-3) and maxima (-4,-5,-6): not the
axis-aligned box spanned by the two transformed corners, and violating the
min ≤ max per-axis invariant. -/
theorem ReprojectionFilter.updateBounds_not_spanned_box :
    negateService.octTransform "in" "out" 1 2 3 = some (-1, -2, -3) ∧
    negateService.octTransform "in" "out" 4 5 6 = some (-4, -5, -6) ∧
    ReprojectionFilter.updateBounds negateService true "in" "out"
        { minx := 1, miny := 2, minz := 3, maxx := 4, maxy := 5, maxz := 6 } =
      { minx := -1, miny := -2, minz := -3,
        maxx := -4, maxy := -5, maxz := -6 } ∧
    ¬((-1 : ℚ) ≤ (-4 : ℚ)) := by
  refine ⟨by decide, by decide, by decide, by norm_num⟩

/-- C5 amended: when both corner transforms succeed during bounds
recomputation, the new declared bounds take the transformed minimum corner
directly as the new per-axis minima and the transformed maximum corner
directly as the new per-axis maxima, with no per-axis reordering; the result
is the axis-aligned box spanned by the two transformed corners (with
min ≤ max per axis) only when the transform preserves the per-axis order of
the two corners. -/
theorem ReprojectionFilter.updateBounds_transformed_corners
    (svc : TransformService) (tin tout : String) (b : Bounds)
    (tx ty tz ux uy uz : ℚ)
    (hmin : svc.octTransform tin tout b.minx b.miny b.minz = some (tx, ty, tz))
    (hmax : svc.octTransform tin tout b.maxx b.maxy b.maxz = some (ux, uy, uz)) :
    ReprojectionFilter.updateBounds svc true tin tout b =
      { minx := tx, miny := ty, minz := tz,
        maxx := ux, maxy := uy, maxz := uz } := by
  unfold ReprojectionFilter.updateBounds
  simp [ReprojectionFilter.transform, hmin, hmax]

/-- C5 amended witness: the negation transform on bounds (1,2,3)-(4,5,6)
stores the transformed corners directly. -/
theorem ReprojectionFilter.updateBounds_transformed_corners_witness :
    ReprojectionFilter.updateBounds negateService true "in" "out"
        { minx := 1, miny := 2, minz := 3, maxx := 4, maxy := 5, maxz := 6 } =
      { minx := -1, miny := -2, minz := -3,
        maxx := -4, maxy := -5, maxz := -6 } :=
  ReprojectionFilter.updateBounds_transformed_corners negateService "in" "out"
    { minx := 1, miny := 2, minz := 3, maxx := 4, maxy := 5, maxz := 6 }
    (-1) (-2) (-3) (-4) (-5) (-6) (by decide) (by decide)

/-- C9 counterexample: with the transform capability absent from the build,
the per-point transform silently returns the triple (1,2,3) unchanged with no
error, even under a service that rejects every triple. -/
theorem ReprojectionFilter.transform_without_capability_silent :
    ReprojectionFilter.transform rejectService false "in" "out" 1 2 3 =
      .ok (1, 2, 3) := rfl

/-- C9 amended: when the transform capability is absent from the build, the
per-point transform step is a silent no-op: for every service and every input
coordinate triple it returns the coordinates unchanged and reports no
error. -/
theorem ReprojectionFilter.transform_without_capability_noop
    (svc : TransformService) (tin tout : String) (x y z : ℚ) :
    ReprojectionFilter.transform svc false tin tout x y z = .ok (x, y, z) :=
  rfl

/-- C8 counterexample: with an Options bag lacking out_srs, the constructor
itself raises the configuration error, so the failure happens at construction
and initialize() is never reached. -/
theorem mkReprojectionFilter_missing_outSRS_fails_at_construction :
    mkReprojectionFilter { pairs := [] } =
      .error (.option_not_found "Required option out_srs was not found") :=
  rfl

theorem ReprojectionFilter.initializeStage_ok_inSRS (svc : TransformService)
    (haveGDAL : Bool) (prevStage : Stage) (f : ReprojectionFilter)
    (s : ReprojectionFilter.InitializedFilter)
    (ev : List ReprojectionFilter.ServiceEvent)
    (h : ReprojectionFilter.initializeStage svc haveGDAL prevStage f =
      (.ok s, ev)) :
    s.inSRS = ReprojectionFilter.resolveInSRS prevStage f := by
  unfold ReprojectionFilter.initializeStage at h
  split at h
  · simp [Prod.ext_iff] at h
  · dsimp only at h
    split at h
    · split at h
      · simp [Prod.ext_iff] at h
      · split at h
        · simp [Prod.ext_iff] at h
        · split at h
          · simp [Prod.ext_iff] at h
          · simp only [Prod.mk.injEq, Except.ok.injEq] at h
            rw [← h.1]
    · simp only [Prod.mk.injEq, Except.ok.injEq] at h
      rw [← h.1]

/-- C8 amended: an Options bag lacking the required out_srs key makes the
constructor itself fail with a configuration error, before initialize() could
run; an absent optional in_srs key is not an error: construction succeeds
with input-SRS inference enabled, and whenever initialize() then succeeds,
the resolved input spatial reference is the upstream stage's declared one. -/
theorem mkReprojectionFilter_option_handling (opts : Options)
    (svc : TransformService) (haveGDAL : Bool) (prevStage : Stage) :
    (opts.getValue "out_srs" = none →
      mkReprojectionFilter opts =
        .error (.option_not_found "Required option out_srs was not found")) ∧
    (∀ out, opts.getValue "out_srs" = some out →
      opts.getValue "in_srs" = none →
      mkReprojectionFilter opts =
        .ok { inSRS := "", outSRS := out, inferInputSRS := true } ∧
      ∀ s ev,
        ReprojectionFilter.initializeStage svc haveGDAL prevStage
          { inSRS := "", outSRS := out, inferInputSRS := true } = (.ok s, ev) →
        s.inSRS = prevStage.spatialReference) := by
  constructor
  · intro h
    unfold mkReprojectionFilter
    rw [h]
  · intro out ho hi
    constructor
    · unfold mkReprojectionFilter
      rw [ho, hi]
    · intro s ev h
      have := ReprojectionFilter.initializeStage_ok_inSRS svc haveGDAL
        prevStage { inSRS := "", outSRS := out, inferInputSRS := true } s ev h
      simpa [ReprojectionFilter.resolveInSRS] using this

theorem ReprojectionFilter.transform_gdal_ok_iff (svc : TransformService)
    (tin tout : String) (x y z : ℚ) (p : ℚ × ℚ × ℚ) :
    ReprojectionFilter.transform svc true tin tout x y z = .ok p ↔
      svc.octTransform tin tout x y z = some p := by
  unfold ReprojectionFilter.transform
  cases h : svc.octTransform tin tout x y z <;> simp [h]

theorem ReprojectionFilter.getField_writePoint_ne (data : PointBuffer)
    (j ix iy iz : ℕ) (x' y' z' : ℚ) (p d : ℕ) (hp : p ≠ j) :
    (ReprojectionFilter.writePoint data j ix iy iz x' y' z').getField p d =
      data.getField p d := by
  simp [ReprojectionFilter.writePoint, PointBuffer.getField,
    PointBuffer.setField, PointBuffer.setNumPoints, hp]

theorem ReprojectionFilter.getField_writePoint_other (data : PointBuffer)
    (j ix iy iz : ℕ) (x' y' z' : ℚ) (p d : ℕ)
    (hdx : d ≠ ix) (hdy : d ≠ iy) (hdz : d ≠ iz) :
    (ReprojectionFilter.writePoint data j ix iy iz x' y' z').getField p d =
      data.getField p d := by
  simp [ReprojectionFilter.writePoint, PointBuffer.getField,
    PointBuffer.setField, PointBuffer.setNumPoints, hdx, hdy, hdz]

theorem ReprojectionFilter.getField_writePoint_x (data : PointBuffer)
    (j ix iy iz : ℕ) (x' y' z' : ℚ) (hxy : ix ≠ iy) (hxz : ix ≠ iz) :
    (ReprojectionFilter.writePoint data j ix iy iz x' y' z').getField j ix =
      x' := by
  simp [ReprojectionFilter.writePoint, PointBuffer.getField,
    PointBuffer.setField, PointBuffer.setNumPoints, hxy, hxz]

theorem ReprojectionFilter.getField_writePoint_y (data : PointBuffer)
    (j ix iy iz : ℕ) (x' y' z' : ℚ) (hyz : iy ≠ iz) :
    (ReprojectionFilter.writePoint data j ix iy iz x' y' z').getField j iy =
      y' := by
  simp [ReprojectionFilter.writePoint, PointBuffer.getField,
    PointBuffer.setField, PointBuffer.setNumPoints, hyz]

theorem ReprojectionFilter.getField_writePoint_z (data : PointBuffer)
    (j ix iy iz : ℕ) (x' y' z' : ℚ) :
    (ReprojectionFilter.writePoint data j ix iy iz x' y' z').getField j iz =
      z' := by
  simp [ReprojectionFilter.writePoint, PointBuffer.getField,
    PointBuffer.setField, PointBuffer.setNumPoints]

theorem ReprojectionFilter.numPoints_writePoint (data : PointBuffer)
    (j ix iy iz : ℕ) (x' y' z' : ℚ) :
    (ReprojectionFilter.writePoint data j ix iy iz x' y' z').numPoints =
      j + 1 := rfl

theorem ReprojectionFilter.schema_writePoint (data : PointBuffer)
    (j ix iy iz : ℕ) (x' y' z' : ℚ) :
    (ReprojectionFilter.writePoint data j ix iy iz x' y' z').schema =
      data.schema := rfl

theorem ReprojectionFilter.processLoop_stop (svc : TransformService)
    (haveGDAL : Bool) (tin tout : String) (ix iy iz N j : ℕ)
    (data : PointBuffer) (hj : ¬ j < N) :
    ReprojectionFilter.processLoop svc haveGDAL tin tout ix iy iz N j data =
      (data, none) := by
  unfold ReprojectionFilter.processLoop
  rw [dif_neg hj]

theorem ReprojectionFilter.processLoop_stepError (svc : TransformService)
    (haveGDAL : Bool) (tin tout : String) (ix iy iz N j : ℕ)
    (data : PointBuffer) (e : PdalError) (hj : j < N)
    (h : ReprojectionFilter.transform svc haveGDAL tin tout
      (data.getField j ix) (data.getField j iy) (data.getField j iz) =
        .error e) :
    ReprojectionFilter.processLoop svc haveGDAL tin tout ix iy iz N j data =
      (data, some e) := by
  unfold ReprojectionFilter.processLoop
  rw [dif_pos hj, h]

theorem ReprojectionFilter.processLoop_stepOk (svc : TransformService)
    (haveGDAL : Bool) (tin tout : String) (ix iy iz N j : ℕ)
    (data : PointBuffer) (x' y' z' : ℚ) (hj : j < N)
    (h : ReprojectionFilter.transform svc haveGDAL tin tout
      (data.getField j ix) (data.getField j iy) (data.getField j iz) =
        .ok (x', y', z')) :
    ReprojectionFilter.processLoop svc haveGDAL tin tout ix iy iz N j data =
      ReprojectionFilter.processLoop svc haveGDAL tin tout ix iy iz N (j + 1)
        (ReprojectionFilter.writePoint data j ix iy iz x' y' z') := by
  conv_lhs => rw [ReprojectionFilter.processLoop.eq_def]
  rw [dif_pos hj, h]

theorem ReprojectionFilter.processLoop_failSpec (svc : TransformService)
    (haveGDAL : Bool) (tin tout : String) (ix iy iz N k : ℕ) (e : PdalError)
    (hkN : k < N) :
    ∀ n j data, k - j = n → j ≤ k →
    (∀ i, j ≤ i → i < k → ∃ t, ReprojectionFilter.transform svc haveGDAL tin
      tout (data.getField i ix) (data.getField i iy) (data.getField i iz) =
        .ok t) →
    ReprojectionFilter.transform svc haveGDAL tin tout (data.getField k ix)
      (data.getField k iy) (data.getField k iz) = .error e →
    ∃ res,
      ReprojectionFilter.processLoop svc haveGDAL tin tout ix iy iz N j data =
        (res, some e) ∧
      res.numPoints = (if j = k then data.numPoints else k) ∧
      res.schema = data.schema ∧
      (∀ p d, p < j ∨ k ≤ p ∨ (d ≠ ix ∧ d ≠ iy ∧ d ≠ iz) →
        res.getField p d = data.getField p d) ∧
      (ix ≠ iy → ix ≠ iz → iy ≠ iz →
        ∀ i, j ≤ i → i < k →
          ReprojectionFilter.transform svc haveGDAL tin tout
            (data.getField i ix) (data.getField i iy) (data.getField i iz) =
          .ok (res.getField i ix, res.getField i iy, res.getField i iz)) := by
  intro n
  induction n with
  | zero =>
      intro j data hn hjk _hsucc hfail
      have hjk' : j = k := Nat.le_antisymm hjk (Nat.le_of_sub_eq_zero hn)
      subst hjk'
      refine ⟨data, ?_, by simp, rfl, fun p d _ => rfl, ?_⟩
      · exact ReprojectionFilter.processLoop_stepError svc haveGDAL tin tout
          ix iy iz N j data e hkN hfail
      · intro _ _ _ i hji hij
        exact absurd hij (Nat.not_lt.mpr hji)
  | succ n ih =>
      intro j data hn hjk hsucc hfail
      have hjlt : j < k := by omega
      have hjN : j < N := lt_trans hjlt hkN
      obtain ⟨t, ht⟩ := hsucc j le_rfl hjlt
      obtain ⟨x', y', z'⟩ := t
      have hstep := ReprojectionFilter.processLoop_stepOk svc haveGDAL tin
        tout ix iy iz N j data x' y' z' hjN ht
      have hne : ∀ i, j + 1 ≤ i → ∀ d,
          (ReprojectionFilter.writePoint data j ix iy iz x' y' z').getField i
            d = data.getField i d := by
        intro i hi d
        exact ReprojectionFilter.getField_writePoint_ne data j ix iy iz x' y'
          z' i d (by omega)
      obtain ⟨res, heq, hnum, hsch, hframe, hvals⟩ := ih (j + 1)
        (ReprojectionFilter.writePoint data j ix iy iz x' y' z') (by omega)
        hjlt
        (by
          intro i hi hik
          rw [hne i hi ix, hne i hi iy, hne i hi iz]
          exact hsucc i (by omega) hik)
        (by
          rw [hne k (by omega) ix, hne k (by omega) iy, hne k (by omega) iz]
          exact hfail)
      refine ⟨res, by rw [hstep, heq], ?_, ?_, ?_, ?_⟩
      · rw [hnum]
        have hjk2 : j ≠ k := Nat.ne_of_lt hjlt
        by_cases hjk1 : j + 1 = k
        · simp [hjk1, hjk2, ReprojectionFilter.numPoints_writePoint]
        · simp [hjk1, hjk2]
      · rw [hsch, ReprojectionFilter.schema_writePoint]
      · intro p d hpd
        have hcase : p < j + 1 ∨ k ≤ p ∨ (d ≠ ix ∧ d ≠ iy ∧ d ≠ iz) := by
          rcases hpd with h1 | h2 | h3
          · exact Or.inl (by omega)
          · exact Or.inr (Or.inl h2)
          · exact Or.inr (Or.inr h3)
        rw [hframe p d hcase]
        rcases hpd with h1 | h2 | h3
        · exact ReprojectionFilter.getField_writePoint_ne data j ix iy iz x'
            y' z' p d (by omega)
        · exact ReprojectionFilter.getField_writePoint_ne data j ix iy iz x'
            y' z' p d (by omega)
        · exact ReprojectionFilter.getField_writePoint_other data j ix iy iz
            x' y' z' p d h3.1 h3.2.1 h3.2.2
      · intro hxy hxz hyz i hji hik
        by_cases hij : i = j
        · subst hij
          rw [ht]
          have hrx : res.getField i ix = x' := by
            rw [hframe i ix (Or.inl (by omega)),
              ReprojectionFilter.getField_writePoint_x data i ix iy iz x' y'
                z' hxy hxz]
          have hry : res.getField i iy = y' := by
            rw [hframe i iy (Or.inl (by omega)),
              ReprojectionFilter.getField_writePoint_y data i ix iy iz x' y'
                z' hyz]
          have hrz : res.getField i iz = z' := by
            rw [hframe i iz (Or.inl (by omega)),
              ReprojectionFilter.getField_writePoint_z data i ix iy iz x' y'
                z']
          rw [hrx, hry, hrz]
        · have hi1 : j + 1 ≤ i := by omega
          have := hvals hxy hxz hyz i hi1 hik
          rw [hne i hi1 ix, hne i hi1 iy, hne i hi1 iz] at this
          exact this

theorem ReprojectionFilter.processLoop_okSpec (svc : TransformService)
    (haveGDAL : Bool) (tin tout : String) (ix iy iz N : ℕ) :
    ∀ n j data, N - j = n →
    (∀ i, j ≤ i → i < N → ∃ t, ReprojectionFilter.transform svc haveGDAL tin
      tout (data.getField i ix) (data.getField i iy) (data.getField i iz) =
        .ok t) →
    ∃ res,
      ReprojectionFilter.processLoop svc haveGDAL tin tout ix iy iz N j data =
        (res, none) ∧
      res.numPoints = (if j < N then N else data.numPoints) ∧
      res.schema = data.schema ∧
      (∀ p d, p < j ∨ N ≤ p ∨ (d ≠ ix ∧ d ≠ iy ∧ d ≠ iz) →
        res.getField p d = data.getField p d) := by
  intro n
  induction n with
  | zero =>
      intro j data hn _hsucc
      have hjN : ¬ j < N := by omega
      refine ⟨data, ?_, by simp [hjN], rfl, fun p d _ => rfl⟩
      exact ReprojectionFilter.processLoop_stop svc haveGDAL tin tout ix iy
        iz N j data hjN
  | succ n ih =>
      intro j data hn hsucc
      have hjN : j < N := by omega
      obtain ⟨t, ht⟩ := hsucc j le_rfl hjN
      obtain ⟨x', y', z'⟩ := t
      have hstep := ReprojectionFilter.processLoop_stepOk svc haveGDAL tin
        tout ix iy iz N j data x' y' z' hjN ht
      have hne : ∀ i, j + 1 ≤ i → ∀ d,
          (ReprojectionFilter.writePoint data j ix iy iz x' y' z').getField i
            d = data.getField i d := by
        intro i hi d
        exact ReprojectionFilter.getField_writePoint_ne data j ix iy iz x' y'
          z' i d (by omega)
      obtain ⟨res, heq, hnum, hsch, hframe⟩ := ih (j + 1)
        (ReprojectionFilter.writePoint data j ix iy iz x' y' z') (by omega)
        (by
          intro i hi hiN
          rw [hne i hi ix, hne i hi iy, hne i hi iz]
          exact hsucc i (by omega) hiN)
      refine ⟨res, by rw [hstep, heq], ?_, ?_, ?_⟩
      · rw [hnum]
        by_cases hj1 : j + 1 < N
        · simp [hj1, hjN]
        · have hj1N : j + 1 = N := by omega
          simp [hj1, hjN, ReprojectionFilter.numPoints_writePoint, hj1N]
      · rw [hsch, ReprojectionFilter.schema_writePoint]
      · intro p d hpd
        have hcase : p < j + 1 ∨ N ≤ p ∨ (d ≠ ix ∧ d ≠ iy ∧ d ≠ iz) := by
          rcases hpd with h1 | h2 | h3
          · exact Or.inl (by omega)
          · exact Or.inr (Or.inl h2)
          · exact Or.inr (Or.inr h3)
        rw [hframe p d hcase]
        rcases hpd with h1 | h2 | h3
        · exact ReprojectionFilter.getField_writePoint_ne data j ix iy iz x'
            y' z' p d (by omega)
        · exact ReprojectionFilter.getField_writePoint_ne data j ix iy iz x'
            y' z' p d (by omega)
        · exact ReprojectionFilter.getField_writePoint_other data j ix iy iz
            x' y' z' p d h3.1 h3.2.1 h3.2.2

theorem Schema.getDimensionIndex_ne (s : Schema) (a b : DimensionId)
    (ha : s.hasDimension a = true) (hb : s.hasDimension b = true)
    (hab : a ≠ b) :
    Schema.getDimensionIndex s a ≠ Schema.getDimensionIndex s b := by
  have ha' : a ∈ s := by simpa [Schema.hasDimension] using ha
  have hb' : b ∈ s := by simpa [Schema.hasDimension] using hb
  intro hcon
  exact hab ((List.indexOf_inj ha' hb').mp hcon)

/-- C1: with the transform capability present, if the buffer's valid-count is
N, 0 < k < N, the external transform succeeds on the stored X/Y/Z triples of
points 0..k-1 and fails on point k's triple, then processBuffer raises an
error and afterwards the buffer's valid-count equals k and points 0..k-1 hold
their transformed X/Y/Z values — the valid-count marker having been advanced
one point at a time after each successful point. -/
theorem ReprojectionFilter.processBuffer_midFailure (svc : TransformService)
    (tin tout : String) (data : PointBuffer) (k : ℕ)
    (hX : data.schema.hasDimension .X_f64 = true)
    (hY : data.schema.hasDimension .Y_f64 = true)
    (hZ : data.schema.hasDimension .Z_f64 = true)
    (hk0 : 0 < k) (hkN : k < data.numPoints)
    (hsucc : ∀ i, i < k → (svc.octTransform tin tout
      (data.getField i (Schema.getDimensionIndex data.schema .X_f64))
      (data.getField i (Schema.getDimensionIndex data.schema .Y_f64))
      (data.getField i (Schema.getDimensionIndex data.schema .Z_f64))).isSome
        = true)
    (hfail : svc.octTransform tin tout
      (data.getField k (Schema.getDimensionIndex data.schema .X_f64))
      (data.getField k (Schema.getDimensionIndex data.schema .Y_f64))
      (data.getField k (Schema.getDimensionIndex data.schema .Z_f64)) =
        none) :
    ∃ res e,
      ReprojectionFilter.processBuffer svc true tin tout data =
        (res, some e) ∧
      res.numPoints = k ∧
      (∀ i, i < k → svc.octTransform tin tout
        (data.getField i (Schema.getDimensionIndex data.schema .X_f64))
        (data.getField i (Schema.getDimensionIndex data.schema .Y_f64))
        (data.getField i (Schema.getDimensionIndex data.schema .Z_f64)) =
        some (res.getField i (Schema.getDimensionIndex data.schema .X_f64),
              res.getField i (Schema.getDimensionIndex data.schema .Y_f64),
              res.getField i (Schema.getDimensionIndex data.schema .Z_f64))) := by
  have hxy := Schema.getDimensionIndex_ne data.schema .X_f64 .Y_f64 hX hY
    (by decide)
  have hxz := Schema.getDimensionIndex_ne data.schema .X_f64 .Z_f64 hX hZ
    (by decide)
  have hyz := Schema.getDimensionIndex_ne data.schema .Y_f64 .Z_f64 hY hZ
    (by decide)
  have hsucc' : ∀ i, 0 ≤ i → i < k → ∃ t,
      ReprojectionFilter.transform svc true tin tout
        (data.getField i (Schema.getDimensionIndex data.schema .X_f64))
        (data.getField i (Schema.getDimensionIndex data.schema .Y_f64))
        (data.getField i (Schema.getDimensionIndex data.schema .Z_f64)) =
          .ok t := by
    intro i _ hik
    obtain ⟨t, ht⟩ := Option.isSome_iff_exists.mp (hsucc i hik)
    exact ⟨t, (ReprojectionFilter.transform_gdal_ok_iff svc tin tout _ _ _
      t).mpr ht⟩
  have hfail' := ReprojectionFilter.transform_gdal_none svc tin tout _ _ _
    hfail
  obtain ⟨res, heq, hnum, hsch, hframe, hvals⟩ :=
    ReprojectionFilter.processLoop_failSpec svc true tin tout
      (Schema.getDimensionIndex data.schema .X_f64)
      (Schema.getDimensionIndex data.schema .Y_f64)
      (Schema.getDimensionIndex data.schema .Z_f64)
      data.numPoints k _ hkN k 0 data (by omega) (Nat.zero_le k) hsucc'
      hfail'
  refine ⟨res, PdalError.pdal_error
    ("Could not project point for ReprojectionTransform::" ++
      svc.lastErrorMsg ++ "0"), ?_, ?_, ?_⟩
  · unfold ReprojectionFilter.processBuffer
    exact heq
  · rw [hnum]
    simp [Nat.ne_of_lt hk0]
  · intro i hik
    have hvi := hvals hxy hxz hyz i (Nat.zero_le i) hik
    exact (ReprojectionFilter.transform_gdal_ok_iff svc tin tout _ _ _
      _).mp hvi

/-- C1 witness: a two-point buffer whose second point's x is 10, under the
service that rejects exactly x = 10: the error is raised, the valid count
drops to 1, and point 0 holds the shifted values. -/
theorem ReprojectionFilter.processBuffer_midFailure_witness :
    ∃ res e,
      ReprojectionFilter.processBuffer shiftService true "in" "out" bufferW =
        (res, some e) ∧
      res.numPoints = 1 ∧
      (∀ i, i < 1 → shiftService.octTransform "in" "out"
        (bufferW.getField i (Schema.getDimensionIndex bufferW.schema .X_f64))
        (bufferW.getField i (Schema.getDimensionIndex bufferW.schema .Y_f64))
        (bufferW.getField i (Schema.getDimensionIndex bufferW.schema .Z_f64))
          =
        some (res.getField i
                (Schema.getDimensionIndex bufferW.schema .X_f64),
              res.getField i
                (Schema.getDimensionIndex bufferW.schema .Y_f64),
              res.getField i
                (Schema.getDimensionIndex bufferW.schema .Z_f64))) :=
  ReprojectionFilter.processBuffer_midFailure shiftService "in" "out" bufferW
    1 (by decide) (by decide) (by decide) (by decide) (by decide) (by decide)
    (by decide)

/-- C4: a coordinate triple rejected by the service makes the per-point
transform raise a pdal_error carrying the service's diagnostic text and
return code, and when some point within the buffer's valid count is rejected,
that error propagates out of the enclosing processBuffer call rather than
being silently skipped. -/
theorem ReprojectionFilter.pointFailure_propagates (svc : TransformService)
    (tin tout : String) (x y z : ℚ) (data : PointBuffer)
    (hxyz : svc.octTransform tin tout x y z = none)
    (hbuf : ∃ i, i < data.numPoints ∧ svc.octTransform tin tout
      (data.getField i (Schema.getDimensionIndex data.schema .X_f64))
      (data.getField i (Schema.getDimensionIndex data.schema .Y_f64))
      (data.getField i (Schema.getDimensionIndex data.schema .Z_f64)) =
        none) :
    ReprojectionFilter.transform svc true tin tout x y z =
      .error (.pdal_error
        ("Could not project point for ReprojectionTransform::" ++
          svc.lastErrorMsg ++ "0")) ∧
    (ReprojectionFilter.processBuffer svc true tin tout data).2 =
      some (.pdal_error
        ("Could not project point for ReprojectionTransform::" ++
          svc.lastErrorMsg ++ "0")) := by
  constructor
  · exact ReprojectionFilter.transform_gdal_none svc tin tout x y z hxyz
  · obtain ⟨hkN, hkfail⟩ := Nat.find_spec hbuf
    have hsucc' : ∀ i, 0 ≤ i → i < Nat.find hbuf → ∃ t,
        ReprojectionFilter.transform svc true tin tout
          (data.getField i (Schema.getDimensionIndex data.schema .X_f64))
          (data.getField i (Schema.getDimensionIndex data.schema .Y_f64))
          (data.getField i (Schema.getDimensionIndex data.schema .Z_f64)) =
            .ok t := by
      intro i _ hik
      have hiN : i < data.numPoints := lt_trans hik hkN
      have hmin := Nat.find_min hbuf hik
      have hne : svc.octTransform tin tout
          (data.getField i (Schema.getDimensionIndex data.schema .X_f64))
          (data.getField i (Schema.getDimensionIndex data.schema .Y_f64))
          (data.getField i (Schema.getDimensionIndex data.schema .Z_f64)) ≠
            none := by
        intro hc
        exact hmin ⟨hiN, hc⟩
      obtain ⟨t, ht⟩ := Option.ne_none_iff_exists'.mp hne
      exact ⟨t, (ReprojectionFilter.transform_gdal_ok_iff svc tin tout _ _ _
        t).mpr ht⟩
    obtain ⟨res, heq, _, _, _, _⟩ :=
      ReprojectionFilter.processLoop_failSpec svc true tin tout
        (Schema.getDimensionIndex data.schema .X_f64)
        (Schema.getDimensionIndex data.schema .Y_f64)
        (Schema.getDimensionIndex data.schema .Z_f64)
        data.numPoints (Nat.find hbuf) _ hkN (Nat.find hbuf) 0 data
        (by omega) (Nat.zero_le _) hsucc'
        (ReprojectionFilter.transform_gdal_none svc tin tout _ _ _ hkfail)
    unfold ReprojectionFilter.processBuffer
    rw [heq]

/-- C4 witness: the triple (10,0,0) is rejected by the shift service, the
transform raises the diagnostic-carrying error, and processBuffer on the
two-point buffer (whose second point is rejected) surfaces that error. -/
theorem ReprojectionFilter.pointFailure_propagates_witness :
    ReprojectionFilter.transform shiftService true "in" "out" 10 0 0 =
      .error (.pdal_error
        ("Could not project point for ReprojectionTransform::" ++
          shiftService.lastErrorMsg ++ "0")) ∧
    (ReprojectionFilter.processBuffer shiftService true "in" "out"
        bufferW).2 =
      some (.pdal_error
        ("Could not project point for ReprojectionTransform::" ++
          shiftService.lastErrorMsg ++ "0")) :=
  ReprojectionFilter.pointFailure_propagates shiftService "in" "out" 10 0 0
    bufferW (by decide) ⟨1, by decide⟩

/-- C10: when every per-point transform succeeds on the buffer, processBuffer
returns no error, the buffer's valid-count afterwards equals its valid-count
before (it never exceeds the initial count), and only the X, Y, Z dimension
fields of points below the valid count are modified: every other dimension
at every point, and every field of points at or beyond the valid count, is
unchanged. -/
theorem ReprojectionFilter.processBuffer_frame (svc : TransformService)
    (haveGDAL : Bool) (tin tout : String) (data : PointBuffer)
    (hsucc : ∀ i, i < data.numPoints → ∃ t,
      ReprojectionFilter.transform svc haveGDAL tin tout
        (data.getField i (Schema.getDimensionIndex data.schema .X_f64))
        (data.getField i (Schema.getDimensionIndex data.schema .Y_f64))
        (data.getField i (Schema.getDimensionIndex data.schema .Z_f64)) =
          .ok t) :
    ∃ res,
      ReprojectionFilter.processBuffer svc haveGDAL tin tout data =
        (res, none) ∧
      res.numPoints = data.numPoints ∧
      (∀ p d, data.numPoints ≤ p ∨
          (d ≠ Schema.getDimensionIndex data.schema .X_f64 ∧
           d ≠ Schema.getDimensionIndex data.schema .Y_f64 ∧
           d ≠ Schema.getDimensionIndex data.schema .Z_f64) →
        res.getField p d = data.getField p d) := by
  obtain ⟨res, heq, hnum, hsch, hframe⟩ :=
    ReprojectionFilter.processLoop_okSpec svc haveGDAL tin tout
      (Schema.getDimensionIndex data.schema .X_f64)
      (Schema.getDimensionIndex data.schema .Y_f64)
      (Schema.getDimensionIndex data.schema .Z_f64)
      data.numPoints data.numPoints 0 data (by omega)
      (fun i _ hiN => hsucc i hiN)
  refine ⟨res, ?_, ?_, ?_⟩
  · unfold ReprojectionFilter.processBuffer
    exact heq
  · rw [hnum, ite_self]
  · intro p d hpd
    exact hframe p d (Or.inr hpd)

/-- C10 witness: the everywhere-successful negation service on the two-point
buffer: no error, the valid count stays 2, and non-X/Y/Z dimensions and
out-of-count points are untouched. -/
theorem ReprojectionFilter.processBuffer_frame_witness :
    ∃ res,
      ReprojectionFilter.processBuffer negateService true "in" "out" bufferW =
        (res, none) ∧
      res.numPoints = bufferW.numPoints ∧
      (∀ p d, bufferW.numPoints ≤ p ∨
          (d ≠ Schema.getDimensionIndex bufferW.schema .X_f64 ∧
           d ≠ Schema.getDimensionIndex bufferW.schema .Y_f64 ∧
           d ≠ Schema.getDimensionIndex bufferW.schema .Z_f64) →
        res.getField p d = bufferW.getField p d) :=
  ReprojectionFilter.processBuffer_frame negateService true "in" "out"
    bufferW (fun _i _ => ⟨_, rfl⟩)

/-- C8 amended witness: a bag holding only out_srs constructs a filter with
inference enabled, and initializing it over an upstream stage resolves the
input SRS to the upstream spatial reference. -/
theorem mkReprojectionFilter_option_handling_witness :
    mkReprojectionFilter { pairs := [("out_srs", "EPSG:4326")] } =
      .ok { inSRS := "", outSRS := "EPSG:4326", inferInputSRS := true } :=
  ((mkReprojectionFilter_option_handling
      { pairs := [("out_srs", "EPSG:4326")] } negateService true stageW).2
    "EPSG:4326" (by decide) (by decide)).1

/-- C6: for every generation mode of the reference reader and every in-range
position k, a Random iterator's seek(k) followed by read yields exactly the
same point values (coordinates and time field) and the same count as a
Sequential iterator over the same reader that has already consumed k
points. -/
theorem Faux.seek_read_matches_sequential (r : Faux.Reader)
    (s : Faux.SequentialIterator) (ri : Faux.RandomIterator) (k cap : ℕ)
    (_hk : k ≤ r.numPoints) (hs : s.index = k) :
    (Faux.RandomIterator.read r (ri.seek k).2 cap).1 =
      (Faux.SequentialIterator.read r s cap).1 ∧
    (Faux.RandomIterator.read r (ri.seek k).2 cap).2.1 =
      (Faux.SequentialIterator.read r s cap).2.1 := by
  subst hs
  exact ⟨rfl, rfl⟩

/-- C6 witness: the spec's section 8 example — ramp reader over bounds
(1,2,3)-(101,152,203) with count 750, seek(99) then a 10-point read matches a
sequential iterator that has already consumed 99 points. -/
theorem Faux.seek_read_matches_sequential_witness :
    (Faux.RandomIterator.read Faux.rampReader
        ((Faux.RandomIterator.seek ⟨0⟩ 99).2) 10).1 =
      (Faux.SequentialIterator.read Faux.rampReader ⟨99⟩ 10).1 ∧
    (Faux.RandomIterator.read Faux.rampReader
        ((Faux.RandomIterator.seek ⟨0⟩ 99).2) 10).2.1 =
      (Faux.SequentialIterator.read Faux.rampReader ⟨99⟩ 10).2.1 :=
  Faux.seek_read_matches_sequential Faux.rampReader ⟨99⟩ ⟨0⟩ 99 10
    (by decide) rfl

/-- C7: in Ramp mode with count N at least 2, point 0 equals the bounds'
minimum corner and point N-1 equals the bounds' maximum corner exactly, and
every point i below N has each coordinate equal to min + i*(max-min)/(N-1)
with time field equal to i. -/
theorem Faux.ramp_endpoints_and_interpolation (r : Faux.Reader)
    (hm : r.mode = .ramp) (hN : 2 ≤ r.numPoints) :
    (∀ i, i < r.numPoints → Faux.pointAt r i =
      { x := r.bounds.minx +
          (i : ℚ) * (r.bounds.maxx - r.bounds.minx) / ((r.numPoints : ℚ) - 1),
        y := r.bounds.miny +
          (i : ℚ) * (r.bounds.maxy - r.bounds.miny) / ((r.numPoints : ℚ) - 1),
        z := r.bounds.minz +
          (i : ℚ) * (r.bounds.maxz - r.bounds.minz) / ((r.numPoints : ℚ) - 1),
        t := i }) ∧
    Faux.pointAt r 0 =
      { x := r.bounds.minx, y := r.bounds.miny, z := r.bounds.minz,
        t := 0 } ∧
    Faux.pointAt r (r.numPoints - 1) =
      { x := r.bounds.maxx, y := r.bounds.maxy, z := r.bounds.maxz,
        t := r.numPoints - 1 } := by
  have hnle : ¬ r.numPoints ≤ 1 := by omega
  have hden : ((r.numPoints : ℚ) - 1) ≠ 0 := by
    have h2 : (2 : ℚ) ≤ (r.numPoints : ℚ) := by exact_mod_cast hN
    intro hc
    have : (r.numPoints : ℚ) = 1 := by linarith
    linarith
  refine ⟨fun i _hi => by simp [Faux.pointAt, hm, hnle], ?_, ?_⟩
  · simp [Faux.pointAt, hm, hnle]
  · have h1 : 1 ≤ r.numPoints := by omega
    have hcast : ((r.numPoints - 1 : ℕ) : ℚ) = (r.numPoints : ℚ) - 1 := by
      push_cast [Nat.cast_sub h1]
      ring
    have hx : r.bounds.minx + ((r.numPoints - 1 : ℕ) : ℚ) *
        (r.bounds.maxx - r.bounds.minx) / ((r.numPoints : ℚ) - 1) =
          r.bounds.maxx := by
      rw [hcast]; field_simp
    have hy : r.bounds.miny + ((r.numPoints - 1 : ℕ) : ℚ) *
        (r.bounds.maxy - r.bounds.miny) / ((r.numPoints : ℚ) - 1) =
          r.bounds.maxy := by
      rw [hcast]; field_simp
    have hz : r.bounds.minz + ((r.numPoints - 1 : ℕ) : ℚ) *
        (r.bounds.maxz - r.bounds.minz) / ((r.numPoints : ℚ) - 1) =
          r.bounds.maxz := by
      rw [hcast]; field_simp
    simp [Faux.pointAt, hm, hnle, hx, hy, hz]

/-- C7 witness: the two-point ramp reader over bounds (0,0,0)-(4,4,4)
produces exactly the minimum corner at position 0 and the maximum corner at
position 1. -/
theorem Faux.ramp_endpoints_witness :
    Faux.pointAt Faux.rampReader2 0 =
      { x := 0, y := 0, z := 0, t := 0 } ∧
    Faux.pointAt Faux.rampReader2 1 =
      { x := 4, y := 4, z := 4, t := 1 } := by
  have h := Faux.ramp_endpoints_and_interpolation Faux.rampReader2 rfl
    (by decide)
  exact ⟨h.2.1, h.2.2⟩

end PDAL
